import Mathlib

/-!
# Shallow embedding of `src/budget_tracker.py`

The budget tracker keeps budgets, budget lines, expenditures and an audit
log in a SQLite store.  The embedding models the store as an explicit `DB`
value threaded through every operation; monetary amounts are rationals
(the source uses floats, but every value the claims touch is exactly
representable and no float-specific behaviour is claimed).

Nondeterministic inputs of the source — `uuid.uuid4()` identities and
`datetime.utcnow()` timestamps — are passed as explicit string arguments
(`newId`, `now`, `nowDate`).  Mutating operations return the possibly
updated `DB` next to their `Except` result: the source raises before any
write on every failure path, so failures return the input `DB` unchanged.

Audit-log `details` strings abbreviate the source's `f"...${x:,.2f}"`
formatting (claims only count audit entries, never parse them); the
read-only reports drop the SQL `ORDER BY category, subcategory` (claims
are insensitive to report-internal ordering) and compliance items are
structured values rather than formatted message strings.
-/

namespace BudgetTracker

/-- `BudgetStatus` enum of the source. -/
inductive BudgetStatus where
  | draft
  | approved
  | active
  | closed
deriving DecidableEq, Repr

/-- The string stored in the `status` column (`BudgetStatus.value` in Python). -/
def BudgetStatus.value : BudgetStatus → String
  | .draft => "draft"
  | .approved => "approved"
  | .active => "active"
  | .closed => "closed"

/-- Row of the `budgets` table / `Budget` dataclass. -/
structure Budget where
  budget_id : String
  title : String
  fiscal_year : Int
  total_amount : ℚ
  department : String
  status : BudgetStatus
  created_at : String
  updated_at : String
  approved_by : Option String
  approved_at : Option String
  notes : String
deriving DecidableEq, Repr

/-- Row of the `budget_lines` table / `BudgetLine` dataclass. -/
structure BudgetLine where
  line_id : String
  budget_id : String
  category : String
  subcategory : String
  allocated : ℚ
  spent : ℚ
  committed : ℚ
  created_at : String
deriving DecidableEq, Repr

/-- The `available` property of `BudgetLine`: `allocated - spent - committed`. -/
def BudgetLine.available (l : BudgetLine) : ℚ :=
  l.allocated - l.spent - l.committed

/-- Row of the `expenditures` table / `Expenditure` dataclass. -/
structure Expenditure where
  expenditure_id : String
  budget_line_id : String
  vendor : String
  amount : ℚ
  description : String
  approved_by : String
  date : String
  created_at : String
  receipt_ref : Option String
  category : String
deriving DecidableEq, Repr

/-- Row of the `audit_log` table (the generated `log_id` is dropped: no
claim inspects it). -/
structure AuditEntry where
  budget_id : String
  action : String
  details : String
  timestamp : String
  user_id : String
deriving DecidableEq, Repr

/-- Error kinds.  The source raises `ValueError` with distinct messages for
the three failure shapes; the spec names them NotFound / InvalidState /
InsufficientFunds. -/
inductive Err where
  | notFound
  | invalidState
  | insufficientFunds
deriving DecidableEq, Repr

/-- The persistent store: the four tables created by `init_db`. -/
structure DB where
  budgets : List Budget
  lines : List BudgetLine
  expenditures : List Expenditure
  audit : List AuditEntry
deriving DecidableEq, Repr

/-- The `_log` helper: append one audit row with the system actor. -/
def log_action (budget_id action details now : String) (db : DB) : DB :=
  { db with
      audit := db.audit ++
        [{ budget_id := budget_id, action := action, details := details,
           timestamp := now, user_id := "system" }] }

/-- `create_budget`: no validation of any argument; inserts a Draft budget
and logs CREATE_BUDGET. -/
def create_budget (title : String) (fiscal_year : Int) (total_amount : ℚ)
    (department : String) (notes : String) (newId now : String) (db : DB) :
    Budget × DB :=
  let budget : Budget :=
    { budget_id := newId, title := title, fiscal_year := fiscal_year,
      total_amount := total_amount, department := department,
      status := .draft, created_at := now, updated_at := now,
      approved_by := none, approved_at := none, notes := notes }
  (budget,
    log_action newId "CREATE_BUDGET" ("Budget for " ++ department) now
      { db with budgets := db.budgets ++ [budget] })

/-- `add_budget_line`: NotFound if the budget is absent, InvalidState unless
its status is draft or approved; otherwise inserts the line (any
`allocated`, no check against `total_amount`), touches the budget's
`updated_at`, and logs ADD_LINE. -/
def add_budget_line (budget_id category subcategory : String) (allocated : ℚ)
    (newId now : String) (db : DB) : Except Err BudgetLine × DB :=
  match db.budgets.find? (fun b => b.budget_id == budget_id) with
  | none => (.error .notFound, db)
  | some row =>
    if row.status ≠ .draft ∧ row.status ≠ .approved then
      (.error .invalidState, db)
    else
      let line : BudgetLine :=
        { line_id := newId, budget_id := budget_id, category := category,
          subcategory := subcategory, allocated := allocated,
          spent := 0, committed := 0, created_at := now }
      (.ok line,
        log_action budget_id "ADD_LINE" (category ++ "/" ++ subcategory) now
          { db with
              lines := db.lines ++ [line],
              budgets := db.budgets.map (fun b =>
                if b.budget_id == budget_id then { b with updated_at := now }
                else b) })

/-- `approve_budget`: NotFound if absent, InvalidState unless Draft;
otherwise sets status, approver, approval and update timestamps. -/
def approve_budget (budget_id approved_by now : String) (db : DB) :
    Except Err Bool × DB :=
  match db.budgets.find? (fun b => b.budget_id == budget_id) with
  | none => (.error .notFound, db)
  | some row =>
    if row.status ≠ .draft then (.error .invalidState, db)
    else
      (.ok true,
        log_action budget_id "APPROVE_BUDGET" ("Approved by " ++ approved_by) now
          { db with budgets := db.budgets.map (fun b =>
              if b.budget_id == budget_id then
                { b with status := .approved, approved_by := some approved_by,
                         approved_at := some now, updated_at := now }
              else b) })

/-- `activate_budget`: NotFound if absent, InvalidState unless Approved;
otherwise sets only status and `updated_at`. -/
def activate_budget (budget_id now : String) (db : DB) :
    Except Err Bool × DB :=
  match db.budgets.find? (fun b => b.budget_id == budget_id) with
  | none => (.error .notFound, db)
  | some row =>
    if row.status ≠ .approved then (.error .invalidState, db)
    else
      (.ok true,
        log_action budget_id "ACTIVATE_BUDGET" "" now
          { db with budgets := db.budgets.map (fun b =>
              if b.budget_id == budget_id then
                { b with status := .active, updated_at := now }
              else b) })

/-- `close_budget`: NotFound if absent, InvalidState unless Active;
otherwise sets only status and `updated_at`. -/
def close_budget (budget_id now : String) (db : DB) :
    Except Err Bool × DB :=
  match db.budgets.find? (fun b => b.budget_id == budget_id) with
  | none => (.error .notFound, db)
  | some row =>
    if row.status ≠ .active then (.error .invalidState, db)
    else
      (.ok true,
        log_action budget_id "CLOSE_BUDGET" "" now
          { db with budgets := db.budgets.map (fun b =>
              if b.budget_id == budget_id then
                { b with status := .closed, updated_at := now }
              else b) })

/-- `record_expenditure`: NotFound if the line is absent, InsufficientFunds
if `amount > available`; otherwise inserts the expenditure (date defaulted,
category copied from the line), adds `amount` to the line's `spent`, and
logs RECORD_EXPENDITURE. -/
def record_expenditure (line_id vendor : String) (amount : ℚ)
    (description approved_by : String) (date receipt_ref : Option String)
    (newId now nowDate : String) (db : DB) : Except Err Expenditure × DB :=
  match db.lines.find? (fun l => l.line_id == line_id) with
  | none => (.error .notFound, db)
  | some line =>
    if line.available < amount then (.error .insufficientFunds, db)
    else
      let exp : Expenditure :=
        { expenditure_id := newId, budget_line_id := line_id, vendor := vendor,
          amount := amount, description := description,
          approved_by := approved_by, date := date.getD nowDate,
          created_at := now, receipt_ref := receipt_ref,
          category := line.category }
      (.ok exp,
        log_action line.budget_id "RECORD_EXPENDITURE" (vendor ++ ": " ++ description) now
          { db with
              expenditures := db.expenditures ++ [exp],
              lines := db.lines.map (fun l =>
                if l.line_id == line_id then { l with spent := l.spent + amount }
                else l) })

/-- `commit_funds`: NotFound if the line is absent, InsufficientFunds if
`amount > available`; otherwise adds `amount` to the line's `committed`
and logs COMMIT_FUNDS. -/
def commit_funds (line_id : String) (amount : ℚ) (description now : String)
    (db : DB) : Except Err Bool × DB :=
  match db.lines.find? (fun l => l.line_id == line_id) with
  | none => (.error .notFound, db)
  | some line =>
    if line.available < amount then (.error .insufficientFunds, db)
    else
      (.ok true,
        log_action line.budget_id "COMMIT_FUNDS" description now
          { db with lines := db.lines.map (fun l =>
              if l.line_id == line_id then { l with committed := l.committed + amount }
              else l) })

/-- Two-decimal rounding, Python `round(x, 2)`.  Python rounds ties to even
on floats; no value this development evaluates is a tie, so the tie
convention of `round` is immaterial. -/
def round2 (q : ℚ) : ℚ := (round (q * 100) : ℤ) / 100

/-- One element of the `lines` list returned by `get_variance`. -/
structure LineVariance where
  line_id : String
  category : String
  subcategory : String
  allocated : ℚ
  spent : ℚ
  committed : ℚ
  available : ℚ
  utilization_pct : ℚ
  status : String
deriving DecidableEq, Repr

/-- The per-line body of the `get_variance` loop: `available`, the
`allocated > 0`-guarded rounded percentage, and the derived status tag. -/
def line_variance (l : BudgetLine) : LineVariance :=
  let avail := l.allocated - l.spent - l.committed
  let pct := if 0 < l.allocated then round2 (l.spent / l.allocated * 100) else 0
  { line_id := l.line_id, category := l.category, subcategory := l.subcategory,
    allocated := l.allocated, spent := l.spent, committed := l.committed,
    available := avail, utilization_pct := pct,
    status := if avail < 0 then "over_budget"
              else if 80 < pct then "warning" else "ok" }

/-- The dictionary returned by `get_variance`. -/
structure VarianceReport where
  budget_id : String
  title : String
  fiscal_year : Int
  department : String
  status : String
  total_budget : ℚ
  total_allocated : ℚ
  total_spent : ℚ
  total_committed : ℚ
  total_available : ℚ
  overall_utilization_pct : ℚ
  unallocated : ℚ
  lines : List LineVariance
deriving DecidableEq, Repr

/-- `get_variance`: NotFound if the budget is absent; otherwise sums the
budget's lines and derives the per-line records. -/
def get_variance (budget_id : String) (db : DB) : Except Err VarianceReport :=
  match db.budgets.find? (fun b => b.budget_id == budget_id) with
  | none => .error .notFound
  | some budget =>
    let ls := db.lines.filter (fun l => l.budget_id == budget_id)
    let total_allocated := (ls.map (fun l => l.allocated)).sum
    let total_spent := (ls.map (fun l => l.spent)).sum
    let total_committed := (ls.map (fun l => l.committed)).sum
    .ok
      { budget_id := budget_id, title := budget.title,
        fiscal_year := budget.fiscal_year, department := budget.department,
        status := budget.status.value, total_budget := budget.total_amount,
        total_allocated := total_allocated, total_spent := total_spent,
        total_committed := total_committed,
        total_available := total_allocated - total_spent - total_committed,
        overall_utilization_pct :=
          if 0 < total_allocated then round2 (total_spent / total_allocated * 100)
          else 0,
        unallocated := budget.total_amount - total_allocated,
        lines := ls.map line_variance }

/-- A compliance issue or warning.  The source builds formatted message
strings; the embedding keeps the same information as structured values
(`excess` stands for the `abs(...)` amounts interpolated in the source). -/
inductive ComplianceItem where
  | overAllocated (excess : ℚ)
  | overSpent (category subcategory : String) (excess : ℚ)
  | highUtilization (pct : ℚ) (category subcategory : String)
  | missingReceipts (count : Nat)
deriving DecidableEq, Repr

/-- The dictionary returned by `compliance_check`. -/
structure ComplianceReport where
  budget_id : String
  compliant : Bool
  issues : List ComplianceItem
  warnings : List ComplianceItem
  checked_at : String
deriving DecidableEq, Repr

/-- The receipt SQL of `compliance_check`: expenditures joined to a line of
this budget with `receipt_ref IS NULL` (`line_id` is the primary key of
`budget_lines`, so the join multiplies no rows). -/
def receiptless_count (budget_id : String) (db : DB) : Nat :=
  (db.expenditures.filter (fun e =>
    (db.lines.any (fun bl => bl.line_id == e.budget_line_id &&
                             bl.budget_id == budget_id)) &&
    e.receipt_ref == none)).length

/-- `compliance_check`.  The source's single `for`-loop with
`if available < 0: issues.append(...) elif utilization_pct > 90:
warnings.append(...)` is written as the equivalent pair of filtered maps
(same elements, same relative order); the receipt warning is appended
after the loop exactly when the count is positive. -/
def compliance_check (budget_id now : String) (db : DB) :
    Except Err ComplianceReport :=
  match get_variance budget_id db with
  | .error e => .error e
  | .ok variance =>
    let issues :=
      (if variance.unallocated < 0 then
        [ComplianceItem.overAllocated (-variance.unallocated)]
       else []) ++
      ((variance.lines.filter (fun l => decide (l.available < 0))).map
        (fun l => ComplianceItem.overSpent l.category l.subcategory (-l.available)))
    let loop_warnings :=
      (variance.lines.filter (fun l =>
        !(decide (l.available < 0)) && decide (90 < l.utilization_pct))).map
        (fun l => ComplianceItem.highUtilization l.utilization_pct l.category l.subcategory)
    let cnt := receiptless_count budget_id db
    let warnings :=
      if 0 < cnt then loop_warnings ++ [ComplianceItem.missingReceipts cnt]
      else loop_warnings
    .ok { budget_id := budget_id, compliant := issues.length == 0,
          issues := issues, warnings := warnings, checked_at := now }

/-- The per-line ledger invariant of §8 of the spec:
`spent + committed ≤ allocated`. -/
def lineOK (l : BudgetLine) : Prop := l.spent + l.committed ≤ l.allocated

/-- The invariant over every line of the store. -/
def linesOK (db : DB) : Prop := ∀ l ∈ db.lines, lineOK l

instance (l : BudgetLine) : Decidable (lineOK l) := by
  unfold lineOK; infer_instance

instance (db : DB) : Decidable (linesOK db) := by
  unfold linesOK; infer_instance

/-- After a spend/commit against `line_id`, the target line's funds are not
overdrawn: every line of the store carrying that id has `available ≥ 0`. -/
def lineAvailNonneg (line_id : String) (db : DB) : Prop :=
  ∀ l ∈ db.lines, l.line_id = line_id → 0 ≤ l.available

instance (line_id : String) (db : DB) : Decidable (lineAvailNonneg line_id db) := by
  unfold lineAvailNonneg BudgetLine.available; infer_instance

instance {ε α : Type} [DecidableEq ε] [DecidableEq α] :
    DecidableEq (Except ε α) := fun a b =>
  match a, b with
  | .ok x, .ok y =>
    if h : x = y then isTrue (by rw [h]) else isFalse (by simp [h])
  | .error x, .error y =>
    if h : x = y then isTrue (by rw [h]) else isFalse (by simp [h])
  | .ok _, .error _ => isFalse (by simp)
  | .error _, .ok _ => isFalse (by simp)

/-! ## Concrete scenarios

Stores built by running the operations themselves, used as evaluation
inputs by the witnesses and counterexamples below.  Chain A is the spec's
round-trip scenario (budget 1,000,000 with one 500,000 line); chain B is
the spec's expenditure scenario (300,000 line, 50,000 spent, no receipt);
chains N and D record negative amounts, which no operation rejects; chain
E walks the full status lifecycle. -/

def db0 : DB := ⟨[], [], [], []⟩

def dbA1 : DB := (create_budget "FY2025 Budget" 2025 1000000 "Finance" "" "B1" "t0" db0).2

def dbA2 : DB := (add_budget_line "B1" "Personnel" "Salaries" 500000 "L1" "t1" dbA1).2

/-- The budget row of chain A after its line was added. -/
def budA1 : Budget :=
  { budget_id := "B1", title := "FY2025 Budget", fiscal_year := 2025,
    total_amount := 1000000, department := "Finance", status := .draft,
    created_at := "t0", updated_at := "t1", approved_by := none,
    approved_at := none, notes := "" }

/-- The single budget line of chain A. -/
def lineA1 : BudgetLine :=
  { line_id := "L1", budget_id := "B1", category := "Personnel",
    subcategory := "Salaries", allocated := 500000, spent := 0,
    committed := 0, created_at := "t1" }

def dbB1 : DB := (create_budget "Tech budget" 2025 1000000 "IT" "" "B2" "t0" db0).2

def dbB2 : DB := (add_budget_line "B2" "Tech" "Cloud" 300000 "L2" "t1" dbB1).2

def dbB3 : DB :=
  (record_expenditure "L2" "AWS" 50000 "Cloud hosting" "CTO" none none
    "E2" "t2" "d2" dbB2).2

def dbN1 : DB := (create_budget "Neg budget" 2025 1000000 "Ops" "" "B4" "t0" db0).2

def dbN2 : DB := (add_budget_line "B4" "X" "Y" (-100) "L4" "t1" dbN1).2

def dbN3 : DB :=
  (record_expenditure "L4" "V" (-150) "neg" "A" none none "E4" "t2" "d2" dbN2).2

def dbD1 : DB := (create_budget "Refund budget" 2025 1000000 "Ops" "" "B5" "t0" db0).2

def dbD2 : DB := (add_budget_line "B5" "C" "S" 100 "L5" "t1" dbD1).2

def dbD3 : DB :=
  (record_expenditure "L5" "V" (-50) "refund" "A" none none "E5" "t2" "d2" dbD2).2

def dbE1 : DB := (create_budget "Lifecycle" 2025 500 "Gov" "" "B6" "t0" db0).2

def dbE2 : DB := (approve_budget "B6" "Director" "t1" dbE1).2

def dbE3 : DB := (activate_budget "B6" "t2" dbE2).2

def dbE4 : DB := (close_budget "B6" "t3" dbE3).2

/-- A store with an over-spent line (`available = -50 < 0`, utilization
150% > 90), as the analyzer is meant to detect when such state arrives
through channels other than the engine. -/
def budB7 : Budget :=
  { budget_id := "B7", title := "External", fiscal_year := 2025,
    total_amount := 1000, department := "Ops", status := .active,
    created_at := "t0", updated_at := "t0", approved_by := none,
    approved_at := none, notes := "" }

def lineOver : BudgetLine :=
  { line_id := "L7", budget_id := "B7", category := "Ops",
    subcategory := "Fuel", allocated := 100, spent := 150, committed := 0,
    created_at := "t1" }

def dbC7 : DB := ⟨[budB7], [lineOver], [], []⟩

/-- The Closed budget row of chain E. -/
def budE4 : Budget :=
  { budget_id := "B6", title := "Lifecycle", fiscal_year := 2025,
    total_amount := 500, department := "Gov", status := .closed,
    created_at := "t0", updated_at := "t3", approved_by := some "Director",
    approved_at := some "t1", notes := "" }

/-- The Draft budget row of chain N before its line was added. -/
def budN1 : Budget :=
  { budget_id := "B4", title := "Neg budget", fiscal_year := 2025,
    total_amount := 1000000, department := "Ops", status := .draft,
    created_at := "t0", updated_at := "t0", approved_by := none,
    approved_at := none, notes := "" }

/-- The budget row of chain E while still Draft. -/
def budE1 : Budget :=
  { budget_id := "B6", title := "Lifecycle", fiscal_year := 2025,
    total_amount := 500, department := "Gov", status := .draft,
    created_at := "t0", updated_at := "t0", approved_by := none,
    approved_at := none, notes := "" }

/-- The budget row of chain E once Approved. -/
def budE2 : Budget :=
  { budE1 with status := .approved, approved_by := some "Director",
               approved_at := some "t1", updated_at := "t1" }

/-- The budget row of chain E once Active. -/
def budE3 : Budget := { budE2 with status := .active, updated_at := "t2" }

/-- The line `add_budget_line` happily creates with `allocated = -1`. -/
def lineNeg : BudgetLine :=
  { line_id := "L8", budget_id := "B4", category := "Legal",
    subcategory := "Contracts", allocated := -1, spent := 0, committed := 0,
    created_at := "t8" }

/-- The expenditure row chain B's `record_expenditure` returns. -/
def expB : Expenditure :=
  { expenditure_id := "E2", budget_line_id := "L2", vendor := "AWS",
    amount := 50000, description := "Cloud hosting", approved_by := "CTO",
    date := "d2", created_at := "t2", receipt_ref := none,
    category := "Tech" }

/-- Chain B extended: 100,000 of the remaining 250,000 is committed. -/
def dbB4 : DB := (commit_funds "L2" 100000 "encumber" "t4" dbB3).2

/-- The variance report of chain A's store. -/
def vA : VarianceReport :=
  { budget_id := "B1", title := "FY2025 Budget", fiscal_year := 2025,
    department := "Finance", status := "draft", total_budget := 1000000,
    total_allocated := 500000, total_spent := 0, total_committed := 0,
    total_available := 500000, overall_utilization_pct := 0,
    unallocated := 500000,
    lines := [{ line_id := "L1", category := "Personnel",
                subcategory := "Salaries", allocated := 500000, spent := 0,
                committed := 0, available := 500000, utilization_pct := 0,
                status := "ok" }] }

/-- The line-variance record of chain B's single line. -/
def lvB : LineVariance :=
  { line_id := "L2", category := "Tech", subcategory := "Cloud",
    allocated := 300000, spent := 50000, committed := 0,
    available := 250000, utilization_pct := 1667/100, status := "ok" }

/-- The variance report of chain B's store. -/
def vB : VarianceReport :=
  { budget_id := "B2", title := "Tech budget", fiscal_year := 2025,
    department := "IT", status := "draft", total_budget := 1000000,
    total_allocated := 300000, total_spent := 50000, total_committed := 0,
    total_available := 250000, overall_utilization_pct := 1667/100,
    unallocated := 700000, lines := [lvB] }


/-- Kind test: is the item an over-allocation issue. -/
def ComplianceItem.isOverAllocated : ComplianceItem → Bool
  | .overAllocated _ => true
  | _ => false

/-- Kind test: is the item an over-spend issue. -/
def ComplianceItem.isOverSpent : ComplianceItem → Bool
  | .overSpent _ _ _ => true
  | _ => false

/-- Kind test: is the item a high-utilization warning. -/
def ComplianceItem.isHighUtilization : ComplianceItem → Bool
  | .highUtilization _ _ _ => true
  | _ => false

/-- Kind test: is the item the aggregate missing-receipt warning. -/
def ComplianceItem.isMissingReceipts : ComplianceItem → Bool
  | .missingReceipts _ => true
  | _ => false

/-- The compliance report of chain B's store: clean, except that its one
expenditure has no receipt reference. -/
def rB : ComplianceReport :=
  { budget_id := "B2", compliant := true, issues := [],
    warnings := [.missingReceipts 1], checked_at := "t4" }

/-! ## Claims -/

/-- **C2.**  For every existing budget line and every amount strictly
greater than the line's current available, `record_expenditure` and
`commit_funds` fail with InsufficientFunds and return the store unchanged:
no field update, no expenditure row, no audit row (all-or-nothing
failure). -/
theorem claim2_insufficient_funds_atomic_failure
    (db : DB) (line_id vendor description approved_by newId now nowDate
      cdescription cnow : String) (date receipt_ref : Option String)
    (amount : ℚ) (l : BudgetLine)
    (hfind : db.lines.find? (fun x => x.line_id == line_id) = some l)
    (havail : l.available < amount) :
    record_expenditure line_id vendor amount description approved_by
        date receipt_ref newId now nowDate db
      = (.error .insufficientFunds, db) ∧
    commit_funds line_id amount cdescription cnow db
      = (.error .insufficientFunds, db) := by
  constructor
  · unfold record_expenditure
    rw [hfind]
    simp [havail]
  · unfold commit_funds
    rw [hfind]
    simp [havail]

/-- Witness for C2 at the spec's own scenario shape: a 500,000 line
rejects a 600,000 expenditure and a 600,000 commitment, unchanged store. -/
theorem claim2_witness :
    dbA2.lines.find? (fun x => x.line_id == "L1") = some lineA1 ∧
    lineA1.available < 600000 ∧
    (record_expenditure "L1" "Law Firm" 600000 "Legal fees" "CFO"
        none none "E9" "t9" "d9" dbA2
      = (.error .insufficientFunds, dbA2) ∧
    commit_funds "L1" 600000 "encumber" "t9" dbA2
      = (.error .insufficientFunds, dbA2)) :=
  ⟨by decide, by norm_num [lineA1, BudgetLine.available],
    claim2_insufficient_funds_atomic_failure dbA2 "L1" "Law Firm"
      "Legal fees" "CFO" "E9" "t9" "d9" "encumber" "t9" none none 600000
      lineA1 (by decide) (by norm_num [lineA1, BudgetLine.available])⟩

/-- **C3 counterexample.**  The claim says `create_budget` rejects
`totalAmount < 0` with InvalidInput and persists no budget; the source has
no such check: with `totalAmount = -1` it persists a Draft budget. -/
theorem claim3_counterexample :
    (create_budget "Bad" 2025 (-1) "Finance" "" "B9" "t0" db0).2.budgets
      = [(create_budget "Bad" 2025 (-1) "Finance" "" "B9" "t0" db0).1] ∧
    (create_budget "Bad" 2025 (-1) "Finance" "" "B9" "t0" db0).1.status
      = .draft ∧
    (create_budget "Bad" 2025 (-1) "Finance" "" "B9" "t0" db0).1.total_amount
      = -1 :=
  ⟨by decide, by decide, by decide⟩

/-- **C3 (amended).**  `create_budget` validates nothing: for every
`total_amount` — negative included — it creates and persists a budget in
Draft status with the given generated identity and timestamps, appends the
CREATE_BUDGET audit entry, and touches nothing else. -/
theorem claim3_create_budget_no_validation
    (title department notes newId now : String) (fiscal_year : Int)
    (total_amount : ℚ) (db : DB) :
    ((create_budget title fiscal_year total_amount department notes
        newId now db).1.status = .draft) ∧
    ((create_budget title fiscal_year total_amount department notes
        newId now db).1.budget_id = newId) ∧
    ((create_budget title fiscal_year total_amount department notes
        newId now db).1.created_at = now) ∧
    ((create_budget title fiscal_year total_amount department notes
        newId now db).1.updated_at = now) ∧
    ((create_budget title fiscal_year total_amount department notes
        newId now db).1.total_amount = total_amount) ∧
    ((create_budget title fiscal_year total_amount department notes
        newId now db).2.budgets = db.budgets ++
          [(create_budget title fiscal_year total_amount department notes
              newId now db).1]) ∧
    ((create_budget title fiscal_year total_amount department notes
        newId now db).2.lines = db.lines) ∧
    ((create_budget title fiscal_year total_amount department notes
        newId now db).2.expenditures = db.expenditures) ∧
    ((create_budget title fiscal_year total_amount department notes
        newId now db).2.audit = db.audit ++
          [{ budget_id := newId, action := "CREATE_BUDGET",
             details := "Budget for " ++ department, timestamp := now,
             user_id := "system" }]) := by
  refine ⟨rfl, rfl, rfl, rfl, rfl, rfl, rfl, rfl, rfl⟩

/-- **C5.**  `add_budget_line` fails NotFound when the budget id is absent;
fails InvalidState (store unchanged) when the budget's status is neither
Draft nor Approved; and in Draft or Approved succeeds for every `allocated`
value — no constraint relates `allocated` to `budget.total_amount`. -/
theorem claim5_add_budget_line_guards :
    (∀ (db : DB) (budget_id category subcategory newId now : String)
       (allocated : ℚ),
      db.budgets.find? (fun b => b.budget_id == budget_id) = none →
      add_budget_line budget_id category subcategory allocated newId now db
        = (.error .notFound, db)) ∧
    (∀ (db : DB) (budget_id category subcategory newId now : String)
       (allocated : ℚ) (b : Budget),
      db.budgets.find? (fun x => x.budget_id == budget_id) = some b →
      b.status ≠ .draft → b.status ≠ .approved →
      add_budget_line budget_id category subcategory allocated newId now db
        = (.error .invalidState, db)) ∧
    (∀ (db : DB) (budget_id category subcategory newId now : String)
       (allocated : ℚ) (b : Budget),
      db.budgets.find? (fun x => x.budget_id == budget_id) = some b →
      (b.status = .draft ∨ b.status = .approved) →
      (add_budget_line budget_id category subcategory allocated newId now db).1
        = .ok { line_id := newId, budget_id := budget_id,
                category := category, subcategory := subcategory,
                allocated := allocated, spent := 0, committed := 0,
                created_at := now }) := by
  refine ⟨?_, ?_, ?_⟩
  · intro db budget_id category subcategory newId now allocated hfind
    unfold add_budget_line
    rw [hfind]
  · intro db budget_id category subcategory newId now allocated b hfind h1 h2
    unfold add_budget_line
    rw [hfind]
    simp [h1, h2]
  · intro db budget_id category subcategory newId now allocated b hfind hst
    unfold add_budget_line
    rw [hfind]
    rcases hst with h | h <;> simp [h]

/-- Witness for C5: chain N's line is added with a negative allocation to
a Draft budget (second conjunct exercised on a Closed budget of chain E,
first on the empty store). -/
theorem claim5_witness :
    (db0.budgets.find? (fun b => b.budget_id == "B9") = none ∧
      add_budget_line "B9" "c" "s" 7 "L9" "t9" db0 = (.error .notFound, db0)) ∧
    (dbE4.budgets.find? (fun x => x.budget_id == "B6") = some budE4 ∧
      budE4.status ≠ .draft ∧ budE4.status ≠ .approved ∧
      add_budget_line "B6" "c" "s" 7 "L9" "t9" dbE4
        = (.error .invalidState, dbE4)) ∧
    (dbN1.budgets.find? (fun x => x.budget_id == "B4") = some budN1 ∧
      budN1.status = .draft ∧
      (add_budget_line "B4" "X" "Y" (-100) "L4" "t1" dbN1).1
        = .ok { line_id := "L4", budget_id := "B4", category := "X",
                subcategory := "Y", allocated := -100, spent := 0,
                committed := 0, created_at := "t1" }) :=
  ⟨⟨by decide, claim5_add_budget_line_guards.1 db0 "B9" "c" "s" "L9" "t9" 7
      (by decide)⟩,
   ⟨by decide, by decide, by decide,
    claim5_add_budget_line_guards.2.1 dbE4 "B6" "c" "s" "L9" "t9" 7
      budE4 (by decide) (by decide) (by decide)⟩,
   ⟨by decide, by decide,
    claim5_add_budget_line_guards.2.2 dbN1 "B4" "X" "Y" "L4" "t1"
      (-100) budN1 (by decide) (Or.inl (by decide))⟩⟩

/-- **C4.**  Status transitions are the strict order
Draft→Approved→Active→Closed: `approve_budget` succeeds exactly from
Draft, `activate_budget` exactly from Approved, `close_budget` exactly
from Active, and every out-of-order call on an existing budget fails with
InvalidState and returns the store — hence the status — unchanged.  Since
Closed differs from Draft, Approved and Active, a Closed budget rejects
all three calls. -/
theorem claim4_status_transitions :
    (∀ (db : DB) (budget_id approved_by now : String) (b : Budget),
      db.budgets.find? (fun x => x.budget_id == budget_id) = some b →
      (b.status ≠ .draft →
        approve_budget budget_id approved_by now db
          = (.error .invalidState, db)) ∧
      (b.status = .draft →
        (approve_budget budget_id approved_by now db).1 = .ok true)) ∧
    (∀ (db : DB) (budget_id now : String) (b : Budget),
      db.budgets.find? (fun x => x.budget_id == budget_id) = some b →
      (b.status ≠ .approved →
        activate_budget budget_id now db = (.error .invalidState, db)) ∧
      (b.status = .approved →
        (activate_budget budget_id now db).1 = .ok true)) ∧
    (∀ (db : DB) (budget_id now : String) (b : Budget),
      db.budgets.find? (fun x => x.budget_id == budget_id) = some b →
      (b.status ≠ .active →
        close_budget budget_id now db = (.error .invalidState, db)) ∧
      (b.status = .active →
        (close_budget budget_id now db).1 = .ok true)) := by
  refine ⟨?_, ?_, ?_⟩
  · intro db budget_id approved_by now b hfind
    unfold approve_budget
    rw [hfind]
    exact ⟨fun h => by simp [h], fun h => by simp [h]⟩
  · intro db budget_id now b hfind
    unfold activate_budget
    rw [hfind]
    exact ⟨fun h => by simp [h], fun h => by simp [h]⟩
  · intro db budget_id now b hfind
    unfold close_budget
    rw [hfind]
    exact ⟨fun h => by simp [h], fun h => by simp [h]⟩

/-- Witness for C4 along chain E: activate and close are rejected on the
Draft budget, the in-order calls succeed, and the Closed budget rejects
approve, activate and close alike. -/
theorem claim4_witness :
    (dbE1.budgets.find? (fun x => x.budget_id == "B6") = some budE1 ∧
      budE1.status = .draft ∧
      (approve_budget "B6" "Director" "t1" dbE1).1 = .ok true ∧
      budE1.status ≠ .approved ∧
      activate_budget "B6" "t9" dbE1 = (.error .invalidState, dbE1) ∧
      budE1.status ≠ .active ∧
      close_budget "B6" "t9" dbE1 = (.error .invalidState, dbE1)) ∧
    (dbE2.budgets.find? (fun x => x.budget_id == "B6") = some budE2 ∧
      budE2.status = .approved ∧
      (activate_budget "B6" "t2" dbE2).1 = .ok true) ∧
    (dbE3.budgets.find? (fun x => x.budget_id == "B6") = some budE3 ∧
      budE3.status = .active ∧
      (close_budget "B6" "t3" dbE3).1 = .ok true) ∧
    (dbE4.budgets.find? (fun x => x.budget_id == "B6") = some budE4 ∧
      approve_budget "B6" "X" "t9" dbE4 = (.error .invalidState, dbE4) ∧
      activate_budget "B6" "t9" dbE4 = (.error .invalidState, dbE4) ∧
      close_budget "B6" "t9" dbE4 = (.error .invalidState, dbE4)) :=
  ⟨⟨by decide, by decide,
    (claim4_status_transitions.1 dbE1 "B6" "Director" "t1" budE1
      (by decide)).2 (by decide),
    by decide,
    (claim4_status_transitions.2.1 dbE1 "B6" "t9" budE1 (by decide)).1
      (by decide),
    by decide,
    (claim4_status_transitions.2.2 dbE1 "B6" "t9" budE1 (by decide)).1
      (by decide)⟩,
   ⟨by decide, by decide,
    (claim4_status_transitions.2.1 dbE2 "B6" "t2" budE2 (by decide)).2
      (by decide)⟩,
   ⟨by decide, by decide,
    (claim4_status_transitions.2.2 dbE3 "B6" "t3" budE3 (by decide)).2
      (by decide)⟩,
   ⟨by decide,
    (claim4_status_transitions.1 dbE4 "B6" "X" "t9" budE4 (by decide)).1
      (by decide),
    (claim4_status_transitions.2.1 dbE4 "B6" "t9" budE4 (by decide)).1
      (by decide),
    (claim4_status_transitions.2.2 dbE4 "B6" "t9" budE4 (by decide)).1
      (by decide)⟩⟩

/-- **C10.**  A successful `activate_budget` rewrites the target budget row
to the same record with only `status := active` and `updated_at` replaced
— every other budget field, every other budget row, and the whole
`budget_lines` and `expenditures` tables are unchanged; likewise
`close_budget` with `status := closed`.  (The audit log gains one entry;
the claim does not speak about it.) -/
theorem claim10_transition_frame :
    (∀ (db : DB) (budget_id now : String) (db' : DB),
      activate_budget budget_id now db = (.ok true, db') →
      db'.budgets = db.budgets.map (fun b =>
        if b.budget_id == budget_id then
          { b with status := .active, updated_at := now } else b) ∧
      db'.lines = db.lines ∧ db'.expenditures = db.expenditures) ∧
    (∀ (db : DB) (budget_id now : String) (db' : DB),
      close_budget budget_id now db = (.ok true, db') →
      db'.budgets = db.budgets.map (fun b =>
        if b.budget_id == budget_id then
          { b with status := .closed, updated_at := now } else b) ∧
      db'.lines = db.lines ∧ db'.expenditures = db.expenditures) := by
  constructor
  · intro db budget_id now db' h
    unfold activate_budget at h
    split at h
    · exact Except.noConfusion (congrArg Prod.fst h)
    · split at h
      · exact Except.noConfusion (congrArg Prod.fst h)
      · simp only [Prod.mk.injEq] at h
        obtain ⟨-, h2⟩ := h
        subst h2
        exact ⟨rfl, rfl, rfl⟩
  · intro db budget_id now db' h
    unfold close_budget at h
    split at h
    · exact Except.noConfusion (congrArg Prod.fst h)
    · split at h
      · exact Except.noConfusion (congrArg Prod.fst h)
      · simp only [Prod.mk.injEq] at h
        obtain ⟨-, h2⟩ := h
        subst h2
        exact ⟨rfl, rfl, rfl⟩

/-- Witness for C10 on chain E: activating the Approved budget and closing
the Active one each rewrite exactly the status and `updated_at` of row B6
and keep lines and expenditures. -/
theorem claim10_witness :
    (activate_budget "B6" "t2" dbE2 = (.ok true, dbE3) ∧
      dbE3.budgets = dbE2.budgets.map (fun b =>
        if b.budget_id == "B6" then
          { b with status := .active, updated_at := "t2" } else b) ∧
      dbE3.lines = dbE2.lines ∧ dbE3.expenditures = dbE2.expenditures) ∧
    (close_budget "B6" "t3" dbE3 = (.ok true, dbE4) ∧
      dbE4.budgets = dbE3.budgets.map (fun b =>
        if b.budget_id == "B6" then
          { b with status := .closed, updated_at := "t3" } else b) ∧
      dbE4.lines = dbE3.lines ∧ dbE4.expenditures = dbE3.expenditures) :=
  ⟨⟨by decide, claim10_transition_frame.1 dbE2 "B6" "t2" dbE3 (by decide)⟩,
   ⟨by decide, claim10_transition_frame.2 dbE3 "B6" "t3" dbE4 (by decide)⟩⟩

/-- **C1 counterexample.**  The claim asserts `spent + committed ≤
allocated` after every successful operation for all accepted numeric
arguments, negative `allocated` included; but `add_budget_line` accepts
`allocated = -1` on a Draft budget and the fresh line has
`spent + committed = 0 > -1 = allocated`. -/
theorem claim1_counterexample :
    (add_budget_line "B4" "Legal" "Contracts" (-1) "L8" "t8" dbN1).1
      = .ok lineNeg ∧
    ¬ lineOK lineNeg :=
  ⟨by decide, by norm_num [lineOK, lineNeg]⟩

/-- **C1 (amended).**  The invariant `spent + committed ≤ allocated` holds
for every line after each successful `add_budget_line`,
`record_expenditure` or `commit_funds` provided it held before and the
`add_budget_line` call used `allocated ≥ 0` (the counterexample shows
negative allocations break it at creation).  For the spend/commit cases
the store's line ids are assumed distinct, as the `budget_lines` primary
key guarantees. -/
theorem claim1_ledger_invariant_preserved :
    (∀ (db : DB) (budget_id category subcategory newId now : String)
       (allocated : ℚ) (l : BudgetLine) (db' : DB),
      linesOK db → 0 ≤ allocated →
      add_budget_line budget_id category subcategory allocated newId now db
        = (.ok l, db') →
      linesOK db') ∧
    (∀ (db : DB) (line_id vendor description approved_by newId now
        nowDate : String) (date receipt_ref : Option String) (amount : ℚ)
       (e : Expenditure) (db' : DB),
      linesOK db → (db.lines.map (fun l => l.line_id)).Nodup →
      record_expenditure line_id vendor amount description approved_by
        date receipt_ref newId now nowDate db = (.ok e, db') →
      linesOK db') ∧
    (∀ (db : DB) (line_id description now : String) (amount : ℚ) (db' : DB),
      linesOK db → (db.lines.map (fun l => l.line_id)).Nodup →
      commit_funds line_id amount description now db = (.ok true, db') →
      linesOK db') := by
  refine ⟨?_, ?_, ?_⟩
  · intro db budget_id category subcategory newId now allocated l db' hOK hal h
    unfold add_budget_line at h
    split at h
    · exact Except.noConfusion (congrArg Prod.fst h)
    · split at h
      · exact Except.noConfusion (congrArg Prod.fst h)
      · simp only [Prod.mk.injEq] at h
        obtain ⟨-, h2⟩ := h
        subst h2
        intro x hx
        simp only [log_action, List.mem_append, List.mem_singleton] at hx
        rcases hx with hx | rfl
        · exact hOK x hx
        · simp only [lineOK]
          linarith
  · intro db line_id vendor description approved_by newId now nowDate date
      receipt_ref amount e db' hOK hnd h
    unfold record_expenditure at h
    split at h
    · exact Except.noConfusion (congrArg Prod.fst h)
    · rename_i line0 hfind
      split at h
      · exact Except.noConfusion (congrArg Prod.fst h)
      · rename_i hav
        simp only [Prod.mk.injEq] at h
        obtain ⟨-, h2⟩ := h
        subst h2
        intro x hx
        simp only [log_action, List.mem_map] at hx
        obtain ⟨y, hy, rfl⟩ := hx
        by_cases hid : (y.line_id == line_id) = true
        · have hy0 : y = line0 := by
            refine List.inj_on_of_nodup_map hnd hy
              (List.mem_of_find?_eq_some hfind) ?_
            have h1 := List.find?_some hfind
            simp only [beq_iff_eq] at hid h1
            rw [hid, h1]
          subst hy0
          rw [if_pos hid]
          simp only [lineOK]
          simp only [BudgetLine.available, not_lt] at hav
          have := hOK y hy
          simp only [lineOK] at this
          linarith
        · rw [if_neg hid]
          exact hOK y hy
  · intro db line_id description now amount db' hOK hnd h
    unfold commit_funds at h
    split at h
    · exact Except.noConfusion (congrArg Prod.fst h)
    · rename_i line0 hfind
      split at h
      · exact Except.noConfusion (congrArg Prod.fst h)
      · rename_i hav
        simp only [Prod.mk.injEq] at h
        obtain ⟨-, h2⟩ := h
        subst h2
        intro x hx
        simp only [log_action, List.mem_map] at hx
        obtain ⟨y, hy, rfl⟩ := hx
        by_cases hid : (y.line_id == line_id) = true
        · have hy0 : y = line0 := by
            refine List.inj_on_of_nodup_map hnd hy
              (List.mem_of_find?_eq_some hfind) ?_
            have h1 := List.find?_some hfind
            simp only [beq_iff_eq] at hid h1
            rw [hid, h1]
          subst hy0
          rw [if_pos hid]
          simp only [lineOK]
          simp only [BudgetLine.available, not_lt] at hav
          have := hOK y hy
          simp only [lineOK] at this
          linarith
        · rw [if_neg hid]
          exact hOK y hy

/-- Chain B's expenditure call, evaluated. -/
lemma chainB_record_eq :
    record_expenditure "L2" "AWS" 50000 "Cloud hosting" "CTO" none none
      "E2" "t2" "d2" dbB2 = (.ok expB, dbB3) := by
  norm_num [expB, dbB3, dbB2, dbB1, db0, record_expenditure,
    add_budget_line, create_budget, log_action, BudgetLine.available]

/-- Chain B's store before the expenditure satisfies the ledger invariant. -/
lemma chainB_linesOK : linesOK dbB2 := by
  norm_num [linesOK, lineOK, dbB2, dbB1, db0, add_budget_line,
    create_budget, log_action]

/-- Witness for C1: along chains A and B — a nonnegative line added to a
Draft budget, then a 50,000 expenditure against a 300,000 line — the
invariant holds in every resulting store. -/
theorem claim1_witness :
    (linesOK dbA1 ∧ (0:ℚ) ≤ 500000 ∧
      add_budget_line "B1" "Personnel" "Salaries" 500000 "L1" "t1" dbA1
        = (.ok lineA1, dbA2) ∧
      linesOK dbA2) ∧
    (linesOK dbB2 ∧ (dbB2.lines.map (fun l => l.line_id)).Nodup ∧
      linesOK dbB3) := by
  have hA : add_budget_line "B1" "Personnel" "Salaries" 500000 "L1" "t1" dbA1
      = (.ok lineA1, dbA2) := by decide
  exact
    ⟨⟨by decide, by norm_num,
      hA,
      claim1_ledger_invariant_preserved.1 dbA1 "B1" "Personnel" "Salaries"
        "L1" "t1" 500000 lineA1 dbA2 (by decide) (by norm_num) hA⟩,
     ⟨chainB_linesOK, by decide,
      claim1_ledger_invariant_preserved.2.1 dbB2 "L2" "AWS" "Cloud hosting"
        "CTO" "E2" "t2" "d2" none none 50000 expB dbB3 chainB_linesOK
        (by decide) chainB_record_eq⟩⟩

/-- **C8 counterexample.**  The claim asserts `spent ≥ 0` for every line
reachable through the public operations with any numeric amounts; but
recording an expenditure of `-50` against a fresh 100-line succeeds and
leaves `spent = -50 < 0`. -/
theorem claim8_counterexample :
    dbD3.lines.map (fun l => l.spent) = [-50] ∧ ((-50:ℚ) < 0) := by
  constructor
  · norm_num [dbD3, dbD2, dbD1, db0, record_expenditure, add_budget_line,
      create_budget, log_action, BudgetLine.available]
  · norm_num

/-- **C8 (amended).**  `spent` and `committed` can go negative (negative
amounts are accepted), but the availability check is sound: after every
successful `record_expenditure` or `commit_funds`, the target line's
`available` is ≥ 0 — in particular no successful call takes `available`
from a non-negative value to a negative one.  Line ids are assumed
distinct, as the `budget_lines` primary key guarantees. -/
theorem claim8_no_overdraw :
    (∀ (db : DB) (line_id vendor description approved_by newId now
        nowDate : String) (date receipt_ref : Option String) (amount : ℚ)
       (e : Expenditure) (db' : DB),
      (db.lines.map (fun l => l.line_id)).Nodup →
      record_expenditure line_id vendor amount description approved_by
        date receipt_ref newId now nowDate db = (.ok e, db') →
      lineAvailNonneg line_id db') ∧
    (∀ (db : DB) (line_id description now : String) (amount : ℚ) (db' : DB),
      (db.lines.map (fun l => l.line_id)).Nodup →
      commit_funds line_id amount description now db = (.ok true, db') →
      lineAvailNonneg line_id db') := by
  constructor
  · intro db line_id vendor description approved_by newId now nowDate date
      receipt_ref amount e db' hnd h
    unfold record_expenditure at h
    split at h
    · exact Except.noConfusion (congrArg Prod.fst h)
    · rename_i line0 hfind
      split at h
      · exact Except.noConfusion (congrArg Prod.fst h)
      · rename_i hav
        simp only [Prod.mk.injEq] at h
        obtain ⟨-, h2⟩ := h
        subst h2
        intro x hx hxid
        simp only [log_action, List.mem_map] at hx
        obtain ⟨y, hy, rfl⟩ := hx
        by_cases hid : (y.line_id == line_id) = true
        · have hy0 : y = line0 := by
            refine List.inj_on_of_nodup_map hnd hy
              (List.mem_of_find?_eq_some hfind) ?_
            have h1 := List.find?_some hfind
            simp only [beq_iff_eq] at hid h1
            rw [hid, h1]
          subst hy0
          rw [if_pos hid]
          simp only [BudgetLine.available, not_lt] at hav ⊢
          linarith
        · rw [if_neg hid] at hxid
          exact absurd (beq_iff_eq.mpr hxid) hid
  · intro db line_id description now amount db' hnd h
    unfold commit_funds at h
    split at h
    · exact Except.noConfusion (congrArg Prod.fst h)
    · rename_i line0 hfind
      split at h
      · exact Except.noConfusion (congrArg Prod.fst h)
      · rename_i hav
        simp only [Prod.mk.injEq] at h
        obtain ⟨-, h2⟩ := h
        subst h2
        intro x hx hxid
        simp only [log_action, List.mem_map] at hx
        obtain ⟨y, hy, rfl⟩ := hx
        by_cases hid : (y.line_id == line_id) = true
        · have hy0 : y = line0 := by
            refine List.inj_on_of_nodup_map hnd hy
              (List.mem_of_find?_eq_some hfind) ?_
            have h1 := List.find?_some hfind
            simp only [beq_iff_eq] at hid h1
            rw [hid, h1]
          subst hy0
          rw [if_pos hid]
          simp only [BudgetLine.available, not_lt] at hav ⊢
          linarith
        · rw [if_neg hid] at hxid
          exact absurd (beq_iff_eq.mpr hxid) hid

/-- Witness for C8 on chain B: after the 50,000 expenditure and a 100,000
commitment against the 300,000 line, the line's available is ≥ 0. -/
theorem claim8_witness :
    ((dbB2.lines.map (fun l => l.line_id)).Nodup ∧
      record_expenditure "L2" "AWS" 50000 "Cloud hosting" "CTO" none none
        "E2" "t2" "d2" dbB2 = (.ok expB, dbB3) ∧
      lineAvailNonneg "L2" dbB3) ∧
    ((dbB3.lines.map (fun l => l.line_id)).Nodup ∧
      commit_funds "L2" 100000 "encumber" "t4" dbB3 = (.ok true, dbB4) ∧
      lineAvailNonneg "L2" dbB4) := by
  have hc : commit_funds "L2" 100000 "encumber" "t4" dbB3 = (.ok true, dbB4) := by
    norm_num [dbB4, dbB3, dbB2, dbB1, db0, commit_funds, record_expenditure,
      add_budget_line, create_budget, log_action, BudgetLine.available]
  have hnd3 : (dbB3.lines.map (fun l => l.line_id)).Nodup := by
    norm_num [dbB3, dbB2, dbB1, db0, record_expenditure, add_budget_line,
      create_budget, log_action, BudgetLine.available]
  exact
    ⟨⟨by decide, chainB_record_eq,
      claim8_no_overdraw.1 dbB2 "L2" "AWS" "Cloud hosting" "CTO" "E2" "t2"
        "d2" none none 50000 expB dbB3 (by decide) chainB_record_eq⟩,
     ⟨hnd3, hc,
      claim8_no_overdraw.2 dbB3 "L2" "encumber" "t4" 100000 dbB4 hnd3 hc⟩⟩

/-- **C6 counterexample.**  The claim says `overall_utilization_pct` is
`round2(total_spent/total_allocated*100)` whenever `total_allocated ≠ 0`;
the source zeroes it for all `total_allocated ≤ 0`, not just `= 0`.  In
chain N (line allocated −100, then a successful −150 expenditure),
`get_variance` returns 0 where the claimed formula gives 150. -/
theorem claim6_counterexample :
    (get_variance "B4" dbN3).toOption.map (fun v =>
        (v.total_allocated, v.total_spent, v.overall_utilization_pct))
      = some (-100, -150, 0) ∧
    round2 ((-150:ℚ) / (-100) * 100) = 150 := by
  constructor
  · norm_num [dbN3, dbN2, dbN1, db0, get_variance, record_expenditure,
      add_budget_line, create_budget, log_action, BudgetLine.available,
      line_variance, round2, Except.toOption, BudgetStatus.value]
  · norm_num [round2]

/-- **C6 (amended).**  For every existing budget, `get_variance` returns
the per-field sums over the budget's lines,
`total_available = total_allocated − total_spent − total_committed`,
`unallocated = total_amount − total_allocated`, and
`overall_utilization_pct = round2(total_spent/total_allocated×100)` when
`total_allocated > 0` and `0` otherwise (the counterexample shows the
source zeroes negative totals too); the claim's round-trip example
(1,000,000 budget, one 500,000 line, nothing spent) yields
`total_allocated = 500000`, `unallocated = 500000` and utilization 0. -/
theorem claim6_variance_aggregates (db : DB) (budget_id : String)
    (b : Budget) (v : VarianceReport)
    (hb : db.budgets.find? (fun x => x.budget_id == budget_id) = some b)
    (hv : get_variance budget_id db = .ok v) :
    (v.total_allocated = ((db.lines.filter (fun l => l.budget_id == budget_id)).map
        (fun l => l.allocated)).sum) ∧
    (v.total_spent = ((db.lines.filter (fun l => l.budget_id == budget_id)).map
        (fun l => l.spent)).sum) ∧
    (v.total_committed = ((db.lines.filter (fun l => l.budget_id == budget_id)).map
        (fun l => l.committed)).sum) ∧
    (v.total_available = v.total_allocated - v.total_spent - v.total_committed) ∧
    (v.unallocated = b.total_amount - v.total_allocated) ∧
    (v.overall_utilization_pct =
      if 0 < v.total_allocated then round2 (v.total_spent / v.total_allocated * 100)
      else 0) ∧
    ((get_variance "B1" dbA2).toOption.map (fun w =>
        (w.total_allocated, w.unallocated, w.overall_utilization_pct))
      = some (500000, 500000, 0)) := by
  unfold get_variance at hv
  rw [hb] at hv
  simp only [Except.ok.injEq] at hv
  subst hv
  refine ⟨rfl, rfl, rfl, rfl, rfl, rfl, ?_⟩
  norm_num [dbA2, dbA1, db0, get_variance, add_budget_line, create_budget,
    log_action, line_variance, round2, Except.toOption, BudgetStatus.value]

/-- Witness for C6 at chain A (the claim's round-trip example). -/
theorem claim6_witness :
    dbA2.budgets.find? (fun x => x.budget_id == "B1") = some budA1 ∧
    get_variance "B1" dbA2 = .ok vA ∧
    ((vA.total_allocated = ((dbA2.lines.filter (fun l => l.budget_id == "B1")).map
        (fun l => l.allocated)).sum) ∧
     (vA.total_spent = ((dbA2.lines.filter (fun l => l.budget_id == "B1")).map
        (fun l => l.spent)).sum) ∧
     (vA.total_committed = ((dbA2.lines.filter (fun l => l.budget_id == "B1")).map
        (fun l => l.committed)).sum) ∧
     (vA.total_available = vA.total_allocated - vA.total_spent - vA.total_committed) ∧
     (vA.unallocated = budA1.total_amount - vA.total_allocated) ∧
     (vA.overall_utilization_pct =
       if 0 < vA.total_allocated then round2 (vA.total_spent / vA.total_allocated * 100)
       else 0) ∧
     ((get_variance "B1" dbA2).toOption.map (fun w =>
        (w.total_allocated, w.unallocated, w.overall_utilization_pct))
      = some (500000, 500000, 0))) := by
  have hv : get_variance "B1" dbA2 = .ok vA := by
    norm_num [dbA2, dbA1, db0, get_variance, add_budget_line, create_budget,
      log_action, line_variance, round2, vA, BudgetStatus.value]
  exact ⟨by decide, hv,
    claim6_variance_aggregates dbA2 "B1" budA1 vA (by decide) hv⟩

/-- **C9.**  Every line record in a `get_variance` report carries the
two-decimal rounded utilization (zeroed unless `allocated > 0`) and the
derived tag: "over_budget" when `available < 0`, else "warning" when
`utilization_pct > 80`, else "ok"; in chain B (300,000 allocated, 50,000
spent) the single line reports utilization 16.67 and status "ok". -/
theorem claim9_line_status_tags (db : DB) (budget_id : String)
    (v : VarianceReport) (lv : LineVariance)
    (hv : get_variance budget_id db = .ok v) (hmem : lv ∈ v.lines) :
    (lv.utilization_pct =
      if 0 < lv.allocated then round2 (lv.spent / lv.allocated * 100) else 0) ∧
    (lv.status = if lv.available < 0 then "over_budget"
                 else if 80 < lv.utilization_pct then "warning" else "ok") ∧
    ((get_variance "B2" dbB3).toOption.map (fun w =>
        w.lines.map (fun l => (l.utilization_pct, l.status)))
      = some [((1667:ℚ)/100, "ok")]) := by
  have hex : (get_variance "B2" dbB3).toOption.map (fun w =>
      w.lines.map (fun l => (l.utilization_pct, l.status)))
      = some [((1667:ℚ)/100, "ok")] := by
    norm_num [dbB3, dbB2, dbB1, db0, get_variance, record_expenditure,
      add_budget_line, create_budget, log_action, BudgetLine.available,
      line_variance, round2, round_eq, Except.toOption, BudgetStatus.value]
  unfold get_variance at hv
  split at hv
  · exact Except.noConfusion hv
  · simp only [Except.ok.injEq] at hv
    subst hv
    simp only [List.mem_map] at hmem
    obtain ⟨l, -, rfl⟩ := hmem
    exact ⟨rfl, rfl, hex⟩

/-- Chain B's variance call, evaluated. -/
lemma chainB_variance_eq : get_variance "B2" dbB3 = .ok vB := by
  norm_num [dbB3, dbB2, dbB1, db0, get_variance, record_expenditure,
    add_budget_line, create_budget, log_action, BudgetLine.available,
    line_variance, round2, round_eq, vB, lvB, BudgetStatus.value]

/-- Witness for C9 at chain B. -/
theorem claim9_witness :
    get_variance "B2" dbB3 = .ok vB ∧
    lvB ∈ vB.lines ∧
    ((lvB.utilization_pct =
       if 0 < lvB.allocated then round2 (lvB.spent / lvB.allocated * 100) else 0) ∧
     (lvB.status = if lvB.available < 0 then "over_budget"
                   else if 80 < lvB.utilization_pct then "warning" else "ok") ∧
     ((get_variance "B2" dbB3).toOption.map (fun w =>
        w.lines.map (fun l => (l.utilization_pct, l.status)))
      = some [((1667:ℚ)/100, "ok")])) := by
  have hmem : lvB ∈ vB.lines := List.mem_singleton.mpr rfl
  exact ⟨chainB_variance_eq, hmem,
    claim9_line_status_tags dbB3 "B2" vB lvB chainB_variance_eq hmem⟩

/-- Filtering a mapped list by a predicate the image always satisfies
keeps everything. -/
lemma filter_map_of_forall_true {α β : Type} (p : β → Bool) (f : α → β)
    (l : List α) (h : ∀ a, p (f a) = true) :
    (l.map f).filter p = l.map f := by
  induction l with
  | nil => rfl
  | cons x xs ih => simp [h, ih]

/-- Filtering a mapped list by a predicate the image never satisfies
drops everything. -/
lemma filter_map_of_forall_false {α β : Type} (p : β → Bool) (f : α → β)
    (l : List α) (h : ∀ a, p (f a) = false) :
    (l.map f).filter p = [] := by
  induction l with
  | nil => rfl
  | cons x xs ih => simp [h, ih]

/-- **C7 counterexample.**  The claim asks for a high-utilization warning
for *every* line with `utilization_pct > 90`; the source's `elif` skips
the warning when the same line is over-spent.  On a store holding a line
with `allocated = 100, spent = 150` (available −50 < 0, utilization 150 >
90) `compliance_check` returns no warnings at all. -/
theorem claim7_counterexample :
    (compliance_check "B7" "t9" dbC7).toOption.map (fun r => r.warnings)
      = some [] ∧
    (get_variance "B7" dbC7).toOption.map (fun v =>
        v.lines.map (fun l => (l.available, l.utilization_pct)))
      = some [(-50, 150)] := by
  constructor <;>
    norm_num [compliance_check, get_variance, dbC7, budB7, lineOver,
      line_variance, round2, round_eq, receiptless_count, Except.toOption,
      BudgetStatus.value]

/-- **C7 (amended).**  For every existing budget, `compliance_check`
reports `compliant` exactly when `issues` is empty; emits one
over-allocation issue exactly when `unallocated < 0`; one over-spend
issue per line with `available < 0`; one high-utilization warning per
line with `available ≥ 0` and `utilization_pct > 90` (over-spent lines
are reported only as issues — the source's `elif`); and exactly one
aggregate missing-receipt warning, carrying the count, exactly when some
expenditure of the budget lacks a receipt reference. -/
theorem claim7_compliance_characterization (db : DB)
    (budget_id now : String) (v : VarianceReport) (r : ComplianceReport)
    (hv : get_variance budget_id db = .ok v)
    (hr : compliance_check budget_id now db = .ok r) :
    (r.compliant = true ↔ r.issues = []) ∧
    ((r.issues.filter ComplianceItem.isOverAllocated).length
      = if v.unallocated < 0 then 1 else 0) ∧
    ((r.issues.filter ComplianceItem.isOverSpent).length
      = (v.lines.filter (fun l => decide (l.available < 0))).length) ∧
    ((r.warnings.filter ComplianceItem.isHighUtilization).length
      = (v.lines.filter (fun l =>
          !(decide (l.available < 0)) && decide (90 < l.utilization_pct))).length) ∧
    ((r.warnings.filter ComplianceItem.isMissingReceipts)
      = if 0 < receiptless_count budget_id db
        then [ComplianceItem.missingReceipts (receiptless_count budget_id db)]
        else []) := by
  unfold compliance_check at hr
  rw [hv] at hr
  simp only [Except.ok.injEq] at hr
  subst hr
  have hOAfalse := filter_map_of_forall_false ComplianceItem.isOverAllocated
    (fun l => ComplianceItem.overSpent l.category l.subcategory (-l.available))
    (v.lines.filter (fun l => decide (l.available < 0))) (fun a => rfl)
  have hOStrue := filter_map_of_forall_true ComplianceItem.isOverSpent
    (fun l => ComplianceItem.overSpent l.category l.subcategory (-l.available))
    (v.lines.filter (fun l => decide (l.available < 0))) (fun a => rfl)
  have hHUtrue := filter_map_of_forall_true ComplianceItem.isHighUtilization
    (fun l => ComplianceItem.highUtilization l.utilization_pct l.category
      l.subcategory)
    (v.lines.filter (fun l =>
      !(decide (l.available < 0)) && decide (90 < l.utilization_pct)))
    (fun a => rfl)
  have hMRfalse := filter_map_of_forall_false ComplianceItem.isMissingReceipts
    (fun l => ComplianceItem.highUtilization l.utilization_pct l.category
      l.subcategory)
    (v.lines.filter (fun l =>
      !(decide (l.available < 0)) && decide (90 < l.utilization_pct)))
    (fun a => rfl)
  refine ⟨?_, ?_, ?_, ?_, ?_⟩
  · simp [List.length_eq_zero]
  · by_cases hc : v.unallocated < 0 <;>
      simp [hc, List.filter_append, hOAfalse, ComplianceItem.isOverAllocated]
  · by_cases hc : v.unallocated < 0 <;>
      simp [hc, List.filter_append, hOStrue, ComplianceItem.isOverSpent]
  · by_cases hc : 0 < receiptless_count budget_id db <;>
      simp [hc, List.filter_append, hHUtrue, ComplianceItem.isHighUtilization]
  · by_cases hc : 0 < receiptless_count budget_id db <;>
      simp [hc, List.filter_append, hMRfalse, ComplianceItem.isMissingReceipts]

/-- Witness for C7 at chain B: a compliant budget whose single
receipt-less expenditure produces exactly one aggregate warning. -/
theorem claim7_witness :
    get_variance "B2" dbB3 = .ok vB ∧
    compliance_check "B2" "t4" dbB3 = .ok rB ∧
    ((rB.compliant = true ↔ rB.issues = []) ∧
     ((rB.issues.filter ComplianceItem.isOverAllocated).length
       = if vB.unallocated < 0 then 1 else 0) ∧
     ((rB.issues.filter ComplianceItem.isOverSpent).length
       = (vB.lines.filter (fun l => decide (l.available < 0))).length) ∧
     ((rB.warnings.filter ComplianceItem.isHighUtilization).length
       = (vB.lines.filter (fun l =>
           !(decide (l.available < 0)) && decide (90 < l.utilization_pct))).length) ∧
     ((rB.warnings.filter ComplianceItem.isMissingReceipts)
       = if 0 < receiptless_count "B2" dbB3
         then [ComplianceItem.missingReceipts (receiptless_count "B2" dbB3)]
         else [])) := by
  have hr : compliance_check "B2" "t4" dbB3 = .ok rB := by
    unfold compliance_check
    rw [chainB_variance_eq]
    norm_num [receiptless_count, dbB3, dbB2, dbB1, db0, record_expenditure,
      add_budget_line, create_budget, log_action, BudgetLine.available,
      vB, lvB, rB]
  exact ⟨chainB_variance_eq, hr,
    claim7_compliance_characterization dbB3 "B2" "t4" vB rB
      chainB_variance_eq hr⟩

end BudgetTracker
